import Mathlib

/-!
Shallow embedding of `ai_reply_engine.py` (class `AIReplyEngine`) and proofs
about its reply pipeline: the `<think>`-tag normalizer, the backend protocol
dispatch, intent detection post-processing, the negotiation-cap policy inside
`generate_reply`, the client cache with idle eviction, and the derived
bargain counter.

External effects (database reads, HTTP calls) are passed in as explicit
outcome parameters (`Except`/`Option` values); store writes issued by the
code are collected in a `saved` list.  Strings are modelled as Lean strings;
Python truthiness of a string is modelled as the string being non-empty.
-/

set_option autoImplicit false

namespace XianyuAI

/-! ### Python string primitives used by the source -/

/-- Characters removed by Python `str.strip()` (ASCII whitespace and the
common Unicode space characters). -/
def pyWhitespace (c : Char) : Bool :=
  c = ' ' ∨ c = '\t' ∨ c = '\n' ∨ c = '\r' ∨ c = '\x0b' ∨ c = '\x0c' ∨
  c = '\x1c' ∨ c = '\x1d' ∨ c = '\x1e' ∨ c = '\x1f' ∨ c = '\x85' ∨ c = '\xa0'

/-- Strip on a character list: drop whitespace from both ends. -/
def pyStripL (l : List Char) : List Char :=
  ((l.dropWhile pyWhitespace).reverse.dropWhile pyWhitespace).reverse

/-- Python `str.strip()`. -/
def pyStrip (s : String) : String :=
  (pyStripL s.data).asString

/-- ASCII case folding for one character.  The sentinel comparisons in the
source involve only ASCII letters and Han characters, on which the Python
lower method acts the same way. -/
def pyLowerChar (c : Char) : Char :=
  if 'A' ≤ c ∧ c ≤ 'Z' then Char.ofNat (c.toNat + 32) else c

/-- Python `str.lower()` (ASCII case folding). -/
def pyLower (s : String) : String :=
  (s.data.map pyLowerChar).asString

/-- Whether `pat` occurs as a contiguous substring of `text` (character lists). -/
def containsSubL (pat : List Char) : List Char → Bool
  | [] => pat.isPrefixOf []
  | c :: cs => pat.isPrefixOf (c :: cs) || containsSubL pat cs

/-- Python substring membership test (the in operator on strings). -/
def containsSub (s pat : String) : Bool :=
  containsSubL pat.data s.data

/-- Python replace with empty replacement for a one-character pattern:
removes every occurrence of the character. -/
def removeAllChar (c : Char) (s : String) : String :=
  (s.data.filter (fun d => ¬ d = c)).asString

/-! ### Embedding of the non-greedy think-block removal in the cleaner -/

def openTag : List Char := "<think>".data

def closeTag : List Char := "</think>".data

/-- Suffix of `l` just after the first occurrence of `tag`, or `none` when
`tag` does not occur.  This is the landing point of the non-greedy `.*?`
followed by the closing literal. -/
def afterTag (tag : List Char) : List Char → Option (List Char)
  | [] => if tag.isPrefixOf ([] : List Char) then some [] else none
  | c :: cs =>
    if tag.isPrefixOf (c :: cs) then some ((c :: cs).drop tag.length)
    else afterTag tag cs

/-- Left-to-right scan of the non-greedy regex substitution that deletes
think blocks: at each
position, if the opening literal matches and a closing literal occurs later,
delete through the first closing literal and resume after it; otherwise keep
the character and advance.  Fuel bounds the recursion; `length + 1` fuel is
always enough since every step consumes at least one character. -/
def scrubAux : Nat → List Char → List Char
  | 0, l => l
  | _ + 1, [] => []
  | fuel + 1, c :: cs =>
    if openTag.isPrefixOf (c :: cs) then
      match afterTag closeTag ((c :: cs).drop openTag.length) with
      | some rest => scrubAux fuel rest
      | none => c :: scrubAux fuel cs
    else c :: scrubAux fuel cs

/-- Embedding of the source method clean_thinking_content: remove think
blocks (non-greedy, dot matches newline) and strip whitespace. -/
def clean_thinking_content (text : String) : String :=
  if text = "" then ""
  else (pyStripL (scrubAux (text.data.length + 1) text.data)).asString

/-! ### The response normalizer -/

/-- The message payload of the first choice of a model response: the
standard `content` field and the reasoning-model `reasoning_content` field
(attribute lookup defaults to the empty string; a Python None is modelled
as `""`, both falsy). -/
structure ModelMessage where
  content : String
  reasoning_content : String
deriving DecidableEq

/-- Embedding of the source method extract_response_content: extract the usable final
answer from a response, cleaning embedded `<think>` blocks and treating a
reasoning-only response as "no usable reply" (empty string).  Total: the
source wraps the body in `try/except` returning `""`. -/
def extract_response_content (msg : ModelMessage) : String :=
  let content := msg.content
  let reasoning := msg.reasoning_content
  let final_reply :=
    if ¬ content = "" then
      if containsSub content "<think>" then clean_thinking_content content
      else pyStrip content
    else ""
  if final_reply = "" then
    if ¬ reasoning = "" then ""
    else ""
  else final_reply

/-! ### Account settings and the protocol dispatcher -/

/-- The row returned by `db_manager.get_ai_reply_settings`, restricted to
the fields the engine reads.  `custom_prompts` only matters through whether
`json.loads` succeeds, which is passed separately as an outcome flag. -/
structure AISettings where
  ai_enabled : Bool
  api_key : String
  base_url : String
  model_name : String
  max_bargain_rounds : Nat
deriving DecidableEq

/-- Embedding of the source method is_dashscope_api: the alternate (DashScope single
prompt) protocol is selected only when the lowercased model name is one of
the sentinel names and the base URL contains the provider domain. -/
def is_dashscope_api (settings : AISettings) : Bool :=
  let is_custom_model :=
    decide (pyLower settings.model_name ∈
      (["custom", "自定义", "dashscope", "qwen-custom"] : List String))
  let is_dashscope_url := containsSub settings.base_url "dashscope.aliyuncs.com"
  is_custom_model && is_dashscope_url

/-- Modelled from the spec: "use the alternate (single-prompt) protocol only
when BOTH the configured model identifier matches one of a small fixed set
of sentinel names (case-insensitive: `custom`, a localized equivalent,
`dashscope`, `qwen-custom`) AND the configured endpoint host matches the
domain of the alternate provider."  Written as an explicit disjunction of the
sentinel equalities, for refinement against `is_dashscope_api`. -/
def alt_protocol_spec (settings : AISettings) : Bool :=
  decide (pyLower settings.model_name = "custom" ∨
          pyLower settings.model_name = "自定义" ∨
          pyLower settings.model_name = "dashscope" ∨
          pyLower settings.model_name = "qwen-custom") &&
  containsSub settings.base_url "dashscope.aliyuncs.com"

/-! ### Intent detection -/

/-- Post-processing of the classifier response inside `detect_intent`:
lowercase, delete ASCII and full-width periods, strip, then keyword match.
The fall-through branch of the source (a membership test for a default or
其他 keyword) is kept even though both of its outcomes are `"default"`. -/
def classify_postprocess (response_text : String) : String :=
  let intent := pyStrip (removeAllChar '。' (removeAllChar '.' (pyLower response_text)))
  if containsSub intent "price" || containsSub intent "价格" then "price"
  else if containsSub intent "tech" || containsSub intent "技术" then "tech"
  else if containsSub intent "default" || containsSub intent "其他" then "default"
  else "default"

/-- Modelled from the spec: "lowercase the response, strip periods (both
ASCII and full-width), trim.  Match order: if the normalized text contains
`price` or its localized keyword → `price`; else if it contains `tech` or
its localized keyword → `tech`; else → `default`." -/
def classify_spec (response_text : String) : String :=
  let n := pyStrip (removeAllChar '。' (removeAllChar '.' (pyLower response_text)))
  if containsSub n "price" || containsSub n "价格" then "price"
  else if containsSub n "tech" || containsSub n "技术" then "tech"
  else "default"

/-- Embedding of the source method detect_intent.  External outcomes are explicit:
`settingsFetchOk` is whether the settings read succeeded (a raised error is
caught by the outer handler, yielding `"default"`), `promptsParseOk` is
whether parsing the custom prompts JSON succeeded, `clientAvailable`
is whether `get_client` returned a client, and `callResult` is the backend
call outcome (`.error` = raised).  Every failure path returns `"default"`. -/
def detect_intent (settingsFetchOk : Bool) (settings : AISettings)
    (promptsParseOk : Bool) (clientAvailable : Bool)
    (callResult : Except Unit String) : String :=
  if settingsFetchOk = false then "default"
  else if settings.ai_enabled = false ∨ settings.api_key = "" then "default"
  else if promptsParseOk = false then "default"
  else if is_dashscope_api settings then
    match callResult with
    | .error _ => "default"
    | .ok t => classify_postprocess t
  else if clientAvailable = false then "default"
  else
    match callResult with
    | .error _ => "default"
    | .ok t => classify_postprocess t

/-! ### `generate_reply` and the bargain counter -/

/-- One row submitted to `save_conversation` (conversation/account/user/item
ids omitted: they are threaded through unchanged). -/
structure SavedTurn where
  role : String
  content : String
  intent : String
deriving DecidableEq

/-- Observable outcome of one `generate_reply` invocation: the returned
reply, the turns submitted to the store for this message, whether a backend
generation call was issued, and whether the negotiation-cap refusal branch
was taken. -/
structure GenResult where
  reply : Option String
  saved : List SavedTurn
  modelCalled : Bool
  refused : Bool
deriving DecidableEq

/-- The fixed refusal text returned when the bargain cap is reached. -/
def refuse_reply_text : String := "抱歉，这个价格已经是最优惠的了，不能再便宜了哦！"

/-- Embedding of the source method get_bargain_count: count of persisted price-intent user
turns; the store outcome is explicit (`.error` = the read raised, caught and
mapped to 0; `.ok none` = no row, also 0). -/
def get_bargain_count (storeResult : Except Unit (Option Nat)) : Nat :=
  match storeResult with
  | .error _ => 0
  | .ok none => 0
  | .ok (some n) => n

/-- Embedding of the source method generate_reply.  The `intent` argument is the value returned by
`detect_intent` (which never raises); `bargainStore` is the store outcome
consumed by `get_bargain_count`; `promptsParseOk` is whether
parsing the custom prompts JSON succeeded (a raise is caught by the
outer handler, returning `none` with nothing persisted); `clientAvailable`
is whether `get_client` returned a client on the OpenAI-compatible path;
`callResult` is the backend generation outcome. -/
def generate_reply (settings : AISettings) (message : String) (intent : String)
    (bargainStore : Except Unit (Option Nat)) (promptsParseOk : Bool)
    (clientAvailable : Bool) (callResult : Except Unit String) : GenResult :=
  if settings.ai_enabled = false then ⟨none, [], false, false⟩
  else
    let bargain_count := get_bargain_count bargainStore
    if intent = "price" ∧ settings.max_bargain_rounds ≤ bargain_count then
      ⟨some refuse_reply_text,
       [⟨"user", message, intent⟩, ⟨"assistant", refuse_reply_text, intent⟩],
       false, true⟩
    else if promptsParseOk = false then ⟨none, [], false, false⟩
    else if is_dashscope_api settings then
      match callResult with
      | .error _ => ⟨none, [], true, false⟩
      | .ok reply =>
        if reply = "" then ⟨none, [], true, false⟩
        else ⟨some reply,
              [⟨"user", message, intent⟩, ⟨"assistant", reply, intent⟩],
              true, false⟩
    else if clientAvailable = false then ⟨none, [], false, false⟩
    else
      match callResult with
      | .error _ => ⟨none, [], true, false⟩
      | .ok reply =>
        if reply = "" then ⟨none, [], true, false⟩
        else ⟨some reply,
              [⟨"user", message, intent⟩, ⟨"assistant", reply, intent⟩],
              true, false⟩

/-! ### The client cache and its idle eviction -/

/-- The mutable maps of the engine: cached client keys (`self.clients`),
the last-used map (`self.client_last_used`, an association list standing for
the Python dict, keys unique), and agent keys (`self.agents`). -/
structure EngineState where
  clients : List String
  client_last_used : List (String × Int)
  agents : List String
deriving DecidableEq

/-- Python dict assignment `d[k] = v`: overwrite an existing binding or
append a new one. -/
def setAssoc (l : List (String × Int)) (k : String) (v : Int) : List (String × Int) :=
  if l.any (fun p => p.1 = k) then
    l.map (fun p => if p.1 = k then (k, v) else p)
  else l ++ [(k, v)]

/-- Embedding of the source method get_client.  On a cache miss the current settings are
consulted: a disabled account or missing credential yields `none`, as does
a failed client construction (`constructOk = false`); otherwise the client
is cached.  On a cache hit the settings are not consulted at all.  Every
`some` return refreshes the last-used timestamp. -/
def get_client (st : EngineState) (settings : AISettings) (constructOk : Bool)
    (now : Int) (cookie_id : String) : Option Unit × EngineState :=
  if cookie_id ∈ st.clients then
    (some (), { st with client_last_used := setAssoc st.client_last_used cookie_id now })
  else if settings.ai_enabled = false ∨ settings.api_key = "" then (none, st)
  else if constructOk = false then (none, st)
  else
    (some (), { clients := cookie_id :: st.clients,
                client_last_used := setAssoc st.client_last_used cookie_id now,
                agents := st.agents })

/-- Embedding of the source method cleanup_unused_clients: collect the keys whose idle time
strictly exceeds `max_idle_hours * 3600` seconds, then pop each from all
three maps. -/
def cleanup_unused_clients (st : EngineState) (now : Int) (max_idle_hours : Int) : EngineState :=
  let max_idle_seconds := max_idle_hours * 3600
  let expired :=
    (st.client_last_used.filter (fun p => decide (max_idle_seconds < now - p.2))).map Prod.fst
  { clients := st.clients.filter (fun id => ¬ expired.contains id),
    client_last_used := st.client_last_used.filter (fun p => ¬ expired.contains p.1),
    agents := st.agents.filter (fun a => ¬ expired.contains a) }

/-- A convenient enabled OpenAI-compatible settings row used in witnesses. -/
def sampleSettings : AISettings :=
  ⟨true, "sk-test", "https://api.openai.com/v1", "gpt-4", 3⟩

/-- A disabled settings row with no credential, used in witnesses and
counterexamples. -/
def disabledSettings : AISettings :=
  ⟨false, "", "https://api.openai.com/v1", "gpt-4", 3⟩

/-! ### Helper lemmas -/

lemma containsSubL_of_cons {p : List Char} {c : Char} {cs : List Char}
    (h : containsSubL p (c :: cs) = false) : containsSubL p cs = false := by
  unfold containsSubL at h
  exact (Bool.or_eq_false_iff.mp h).2

lemma afterTag_eq_none (tag : List Char) :
    ∀ l : List Char, containsSubL tag l = false → afterTag tag l = none := by
  intro l
  induction l with
  | nil =>
    intro h
    unfold containsSubL at h
    unfold afterTag
    simp [h]
  | cons c cs ih =>
    intro h
    have h' := Bool.or_eq_false_iff.mp (by unfold containsSubL at h; exact h)
    unfold afterTag
    simp only [h'.1, Bool.false_eq_true, if_false]
    exact ih h'.2

lemma containsSubL_drop (p : List Char) :
    ∀ (n : Nat) (l : List Char),
      containsSubL p l = false → containsSubL p (l.drop n) = false := by
  intro n
  induction n with
  | zero => intro l h; simpa using h
  | succ n ih =>
    intro l h
    cases l with
    | nil => simpa using h
    | cons c cs =>
      rw [List.drop_succ_cons]
      exact ih cs (containsSubL_of_cons h)

lemma scrubAux_eq_self (fuel : Nat) :
    ∀ l : List Char, containsSubL closeTag l = false → scrubAux fuel l = l := by
  induction fuel with
  | zero => intro l _; rfl
  | succ fuel ih =>
    intro l h
    cases l with
    | nil => rfl
    | cons c cs =>
      have hcs : containsSubL closeTag cs = false := containsSubL_of_cons h
      have hdrop : containsSubL closeTag ((c :: cs).drop openTag.length) = false :=
        containsSubL_drop _ _ _ h
      unfold scrubAux
      rw [afterTag_eq_none _ _ hdrop]
      by_cases hp : openTag.isPrefixOf (c :: cs) = true
      · simp [hp, ih cs hcs]
      · simp [hp, ih cs hcs]

lemma clean_thinking_eq_pyStrip {t : String} (h : containsSub t "</think>" = false) :
    clean_thinking_content t = pyStrip t := by
  unfold clean_thinking_content
  by_cases ht : t = ""
  · subst ht; rfl
  · rw [if_neg ht]
    have h' : containsSubL closeTag t.data = false := h
    rw [scrubAux_eq_self _ _ h']
    rfl

lemma classify_postprocess_eq_spec (t : String) :
    classify_postprocess t = classify_spec t := by
  unfold classify_postprocess classify_spec
  simp only [ite_self]

lemma generate_reply_refused_iff (s : AISettings) (msg intent : String)
    (store : Except Unit (Option Nat)) (pOk cAv : Bool) (cr : Except Unit String) :
    (generate_reply s msg intent store pOk cAv cr).refused = true ↔
      (s.ai_enabled = true ∧ intent = "price" ∧
        s.max_bargain_rounds ≤ get_bargain_count store) := by
  unfold generate_reply
  cases hE : s.ai_enabled with
  | false => simp
  | true =>
    simp only [Bool.true_eq_false, if_false, true_and]
    split
    · rename_i hR
      simp [hR]
    · rename_i hR
      simp only [iff_false, hR]
      split
      · simp
      · split
        · split
          · simp
          · split <;> simp
        · split
          · simp
          · split
            · simp
            · split <;> simp

lemma nodup_keys_eq {l : List (String × Int)} {a : String} {b c : Int}
    (h : (l.map Prod.fst).Nodup) (hb : (a, b) ∈ l) (hc : (a, c) ∈ l) : b = c := by
  induction l with
  | nil => cases hb
  | cons p t ih =>
    rw [List.map_cons, List.nodup_cons] at h
    rcases List.mem_cons.mp hb with hb1 | hb2
    · rcases List.mem_cons.mp hc with hc1 | hc2
      · rw [← hb1] at hc1
        injection hc1 with _ h2
        exact h2.symm
      · exfalso
        apply h.1
        rw [← hb1]
        exact List.mem_map.mpr ⟨(a, c), hc2, rfl⟩
    · rcases List.mem_cons.mp hc with hc1 | hc2
      · exfalso
        apply h.1
        rw [← hc1]
        exact List.mem_map.mpr ⟨(a, b), hb2, rfl⟩
      · exact ih h.2 hb2 hc2

/-! ### Claim theorems -/

/-- C2: the normalizer `_extract_response_content` (with
`_clean_thinking_content`) removes completed `<think>...</think>` blocks and
trims (`"<think>reasoning here</think>final answer"` yields
`"final answer"`, and multiple blocks are all removed); non-empty content
without markers yields the trimmed content; empty content yields the empty
string whatever `reasoning_content` is (in particular when reasoning is
non-empty); it is a total function, so it never raises. -/
theorem extract_response_content_normalizes :
    (∀ r : String,
      extract_response_content ⟨"<think>reasoning here</think>final answer", r⟩
        = "final answer")
    ∧ (∀ r : String,
      extract_response_content ⟨"a<think>x</think>b<think>y</think>c", r⟩ = "abc")
    ∧ (∀ c r : String, ¬ c = "" → containsSub c "<think>" = false →
      extract_response_content ⟨c, r⟩ = pyStrip c)
    ∧ (∀ r : String, extract_response_content ⟨"", r⟩ = "") := by
  refine ⟨fun r => rfl, fun r => rfl, ?_, fun r => by simp [extract_response_content]⟩
  intro c r h1 h2
  simp only [extract_response_content]
  rw [if_pos h1]
  simp only [h2, Bool.false_eq_true, if_false]
  by_cases hs : pyStrip c = ""
  · simp [hs]
  · simp [hs]

/-- Witness for C2: the no-marker case at a concrete input, with both
hypotheses discharged. -/
theorem extract_response_content_normalizes_witness :
    (¬ "plain answer" = "") ∧ containsSub "plain answer" "<think>" = false ∧
      extract_response_content ⟨"plain answer", "some reasoning"⟩ = pyStrip "plain answer" :=
  ⟨by decide, by decide,
    extract_response_content_normalizes.2.2.1 "plain answer" "some reasoning"
      (by decide) (by decide)⟩

/-- C3: `_is_dashscope_api` selects the alternate DashScope protocol iff the
lowercased model name is one of the four sentinel names and the base URL
contains the provider domain (refinement against the spec-worded predicate);
in particular `gpt-4` with any base URL selects the OpenAI-compatible path,
`custom` with the provider domain selects the alternate path, and `custom`
with an unrelated domain selects the OpenAI-compatible path. -/
theorem protocol_selection_matches_spec :
    (∀ s : AISettings, is_dashscope_api s = alt_protocol_spec s)
    ∧ (∀ (s : AISettings) (u : String),
        is_dashscope_api { s with model_name := "gpt-4", base_url := u } = false)
    ∧ is_dashscope_api
        ⟨true, "k", "https://dashscope.aliyuncs.com/api/v1/apps/abc/completion", "custom", 3⟩
        = true
    ∧ is_dashscope_api ⟨true, "k", "https://api.openai.com/v1", "custom", 3⟩ = false := by
  refine ⟨?_, ?_, by decide, by decide⟩
  · intro s
    show (decide (pyLower s.model_name ∈
            (["custom", "自定义", "dashscope", "qwen-custom"] : List String)) &&
          containsSub s.base_url "dashscope.aliyuncs.com")
        = (decide (pyLower s.model_name = "custom" ∨
                   pyLower s.model_name = "自定义" ∨
                   pyLower s.model_name = "dashscope" ∨
                   pyLower s.model_name = "qwen-custom") &&
          containsSub s.base_url "dashscope.aliyuncs.com")
    congr 1
    rw [decide_eq_decide]
    simp
  · intro s u
    show (decide (pyLower "gpt-4" ∈
            (["custom", "自定义", "dashscope", "qwen-custom"] : List String)) &&
          containsSub u "dashscope.aliyuncs.com") = false
    have h : decide (pyLower "gpt-4" ∈
        (["custom", "自定义", "dashscope", "qwen-custom"] : List String)) = false := by decide
    rw [h]
    exact Bool.false_and _

/-- Witness for C3: a model name outside the sentinel set stays on the
OpenAI-compatible path even when the URL contains the provider domain. -/
theorem protocol_selection_matches_spec_witness :
    is_dashscope_api
      { sampleSettings with model_name := "gpt-4",
                            base_url := "https://dashscope.aliyuncs.com/x" } = false :=
  protocol_selection_matches_spec.2.1 sampleSettings "https://dashscope.aliyuncs.com/x"

/-- C4: when AI is disabled for the account, `generate_reply` returns `None`
and performs no store writes (no turn is appended for that message). -/
theorem generate_reply_disabled_no_effect :
    ∀ (s : AISettings) (msg intent : String) (store : Except Unit (Option Nat))
      (pOk cAv : Bool) (cr : Except Unit String),
      generate_reply { s with ai_enabled := false } msg intent store pOk cAv cr =
        ⟨none, [], false, false⟩ := by
  intro s msg intent store pOk cAv cr
  unfold generate_reply
  simp

/-- Witness for C4 at a concrete disabled account. -/
theorem generate_reply_disabled_no_effect_witness :
    generate_reply { sampleSettings with ai_enabled := false } "hello" "default"
      (.ok (some 2)) true true (.ok "reply") = ⟨none, [], false, false⟩ :=
  generate_reply_disabled_no_effect sampleSettings "hello" "default"
    (.ok (some 2)) true true (.ok "reply")

/-- C9: when the content has a `<think>` start marker with no `</think>`
end marker, the cleaner removes nothing (only completed, non-greedy marker
pairs are removed): the text is returned with only whitespace trimming, the
extracted reply can still contain the literal `<think>` marker and the
deliberation text, and a stray end marker before the open marker is also
left intact. -/
theorem clean_thinking_unmatched_marker_intact :
    (∀ t : String, containsSub t "</think>" = false →
        clean_thinking_content t = pyStrip t)
    ∧ extract_response_content ⟨"<think>deliberation text", "r"⟩ = "<think>deliberation text"
    ∧ clean_thinking_content "x</think>y<think>z" = "x</think>y<think>z" :=
  ⟨fun _ h => clean_thinking_eq_pyStrip h, by decide, by decide⟩

/-- Witness for C9: a concrete unterminated `<think>` block survives the
cleaner up to whitespace trimming. -/
theorem clean_thinking_unmatched_marker_intact_witness :
    containsSub "<think>half open block" "</think>" = false ∧
      clean_thinking_content "<think>half open block" = pyStrip "<think>half open block" :=
  ⟨by decide, clean_thinking_unmatched_marker_intact.1 "<think>half open block" (by decide)⟩

/-- C1: with AI enabled, the cap check inside `generate_reply` refuses iff
the intent is `price` and the round count reaches the configured cap; when
it refuses, no backend call is made, the fixed refusal text is returned, and
exactly two turns are submitted to the store for the message — the user turn
and the refusal assistant turn, both tagged `price`. -/
theorem generate_reply_price_cap_policy :
    (∀ (s : AISettings) (msg intent : String) (r : Nat) (pOk cAv : Bool)
        (cr : Except Unit String),
      (generate_reply { s with ai_enabled := true } msg intent (.ok (some r)) pOk cAv cr).refused
          = true
        ↔ (intent = "price" ∧ s.max_bargain_rounds ≤ r))
    ∧ (∀ (s : AISettings) (msg : String) (k : Nat) (pOk cAv : Bool)
        (cr : Except Unit String),
      generate_reply { s with ai_enabled := true } msg "price"
          (.ok (some (s.max_bargain_rounds + k))) pOk cAv cr
        = ⟨some refuse_reply_text,
           [⟨"user", msg, "price"⟩, ⟨"assistant", refuse_reply_text, "price"⟩],
           false, true⟩) := by
  constructor
  · intro s msg intent r pOk cAv cr
    rw [generate_reply_refused_iff]
    simp [get_bargain_count]
  · intro s msg k pOk cAv cr
    simp [generate_reply, get_bargain_count, Nat.le_add_right]

/-- Witness for C1 at a concrete capped negotiation. -/
theorem generate_reply_price_cap_policy_witness :
    ((generate_reply { sampleSettings with ai_enabled := true } "能便宜点吗" "price"
        (.ok (some 3)) true true (.ok "ok")).refused = true
      ↔ ("price" = "price" ∧ sampleSettings.max_bargain_rounds ≤ 3)) :=
  generate_reply_price_cap_policy.1 sampleSettings "能便宜点吗" "price" 3 true true (.ok "ok")

/-- C5: when the generation call yields an empty usable text (for example
content empty with non-empty reasoning, which the normalizer maps to `""`),
`generate_reply` returns `None` and submits zero turns to the store for the
message, so history is not polluted and the derived round count cannot
increase. -/
theorem generate_reply_empty_reply_no_persist :
    ∀ (s : AISettings) (msg intent : String) (store : Except Unit (Option Nat))
      (pOk cAv : Bool),
      ¬ (intent = "price" ∧ s.max_bargain_rounds ≤ get_bargain_count store) →
      (generate_reply { s with ai_enabled := true } msg intent store pOk cAv (.ok "")).reply = none
      ∧ (generate_reply { s with ai_enabled := true } msg intent store pOk cAv (.ok "")).saved
          = [] := by
  intro s msg intent store pOk cAv h
  constructor <;>
  · unfold generate_reply
    split
    · simp
    · rw [if_neg h]
      split
      · rfl
      · split
        · simp
        · split
          · rfl
          · simp

/-- Witness for C5: a reasoning-only response (content empty) at round 0 of
3 yields no reply and no persisted turns. -/
theorem generate_reply_empty_reply_no_persist_witness :
    (¬ ("price" = "price" ∧ sampleSettings.max_bargain_rounds ≤ get_bargain_count (.ok (some 0))))
    ∧ (generate_reply { sampleSettings with ai_enabled := true } "能便宜点吗" "price"
        (.ok (some 0)) true true
        (.ok (extract_response_content ⟨"", "truncated reasoning only"⟩))).reply = none
    ∧ (generate_reply { sampleSettings with ai_enabled := true } "能便宜点吗" "price"
        (.ok (some 0)) true true
        (.ok (extract_response_content ⟨"", "truncated reasoning only"⟩))).saved = [] := by
  have hx : extract_response_content ⟨"", "truncated reasoning only"⟩ = "" := by decide
  have h : ¬ ("price" = "price" ∧
      sampleSettings.max_bargain_rounds ≤ get_bargain_count (.ok (some 0))) := by decide
  have hmain := generate_reply_empty_reply_no_persist sampleSettings "能便宜点吗" "price"
    (.ok (some 0)) true true h
  rw [hx]
  exact ⟨h, hmain.1, hmain.2⟩

/-- C6: `detect_intent` never lets an error escape — a failed settings read,
a disabled account, a missing credential, a failed custom-prompt parse, or a
raising backend call all yield `"default"`; on success the post-processing
(lowercase, strip ASCII and full-width periods, trim, then keyword match)
agrees with the spec-worded classifier, mapping `price`/`价格` to `price`,
else `tech`/`技术` to `tech`, else `default`. -/
theorem detect_intent_defaults_and_postprocess :
    (∀ (s : AISettings) (pOk cAv : Bool) (cr : Except Unit String),
        detect_intent false s pOk cAv cr = "default")
    ∧ (∀ (s : AISettings) (pOk cAv : Bool) (cr : Except Unit String),
        detect_intent true { s with ai_enabled := false } pOk cAv cr = "default")
    ∧ (∀ (s : AISettings) (pOk cAv : Bool) (cr : Except Unit String),
        detect_intent true { s with api_key := "" } pOk cAv cr = "default")
    ∧ (∀ (s : AISettings) (cAv : Bool) (cr : Except Unit String),
        detect_intent true s false cAv cr = "default")
    ∧ (∀ (s : AISettings) (pOk cAv : Bool) (e : Unit),
        detect_intent true s pOk cAv (.error e) = "default")
    ∧ (∀ (s : AISettings) (t : String),
        detect_intent true { s with ai_enabled := true, api_key := "sk" } true true (.ok t)
          = classify_spec t) := by
  refine ⟨fun s pOk cAv cr => rfl, fun s pOk cAv cr => rfl, ?_, ?_, ?_, ?_⟩
  · intro s pOk cAv cr
    obtain ⟨e, k, u, m, mb⟩ := s
    cases e <;> rfl
  · intro s cAv cr
    unfold detect_intent
    rw [if_neg (by simp)]
    by_cases h : s.ai_enabled = false ∨ s.api_key = ""
    · rw [if_pos h]
    · rw [if_neg h]
      rfl
  · intro s pOk cAv e
    unfold detect_intent
    rw [if_neg (by simp)]
    by_cases h1 : s.ai_enabled = false ∨ s.api_key = ""
    · rw [if_pos h1]
    · rw [if_neg h1]
      by_cases h2 : pOk = false
      · rw [if_pos h2]
      · rw [if_neg h2]
        by_cases h3 : is_dashscope_api s = true
        · rw [if_pos h3]
        · rw [if_neg h3]
          by_cases h4 : cAv = false
          · rw [if_pos h4]
          · rw [if_neg h4]
  · intro s t
    unfold detect_intent
    have h1 : ¬ (true = false) := by decide
    have h2 : ¬ (({ s with ai_enabled := true, api_key := "sk" } : AISettings).ai_enabled = false ∨
        ({ s with ai_enabled := true, api_key := "sk" } : AISettings).api_key = "") := by
      intro hor
      rw [show ({ s with ai_enabled := true, api_key := "sk" } : AISettings).ai_enabled = true
            from rfl,
          show ({ s with ai_enabled := true, api_key := "sk" } : AISettings).api_key = "sk"
            from rfl] at hor
      exact absurd hor (by decide)
    rw [if_neg h1, if_neg h2, if_neg h1]
    by_cases h : is_dashscope_api { s with ai_enabled := true, api_key := "sk" } = true
    · rw [if_pos h]
      exact classify_postprocess_eq_spec t
    · rw [if_neg h, if_neg h1]
      exact classify_postprocess_eq_spec t

/-- Witness for C6: a verbose classifier answer with a full-width period is
post-processed to `price`, agreeing with the spec classifier. -/
theorem detect_intent_defaults_and_postprocess_witness :
    detect_intent true { sampleSettings with ai_enabled := true, api_key := "sk" } true true
        (.ok "Price。") = classify_spec "Price。" :=
  detect_intent_defaults_and_postprocess.2.2.2.2.2 sampleSettings "Price。"

/-- Counterexample for C10: with a cap of 0, a store read failure still lets
the cap check refuse — round count 0 satisfies `0 >= 0` — so "the cap check
cannot refuse" does not hold for every configured cap. -/
theorem bargain_store_failure_refuses_at_zero_cap :
    (generate_reply ⟨true, "k", "https://api.openai.com/v1", "gpt-4", 0⟩ "能便宜点吗" "price"
        (.error ()) true true (.ok "ok")).refused = true := by decide

/-- C10 (amended): a failing store read inside `get_bargain_count` yields 0
instead of propagating, so a `price` message is treated as round 0 and, for
every cap of at least 1, the cap check in `generate_reply` cannot refuse
regardless of the true persisted history (with cap 0 it still refuses). -/
theorem bargain_store_failure_treated_as_round_zero :
    (∀ e : Unit, get_bargain_count (.error e) = 0)
    ∧ (∀ (s : AISettings) (msg : String) (m : Nat) (pOk cAv : Bool)
        (cr : Except Unit String) (e : Unit),
        (generate_reply { s with ai_enabled := true, max_bargain_rounds := m + 1 } msg "price"
            (.error e) pOk cAv cr).refused = false) := by
  constructor
  · intro e; rfl
  · intro s msg m pOk cAv cr e
    apply Bool.eq_false_iff.mpr
    intro ht
    have h := (generate_reply_refused_iff _ _ _ _ _ _ _).mp ht
    simp [get_bargain_count] at h

/-- Witness for C10 (amended) at cap 1 with a failed store read. -/
theorem bargain_store_failure_treated_as_round_zero_witness :
    get_bargain_count (.error ()) = 0 ∧
      (generate_reply { sampleSettings with ai_enabled := true, max_bargain_rounds := 1 }
          "能便宜点吗" "price" (.error ()) true true (.ok "ok")).refused = false :=
  ⟨bargain_store_failure_treated_as_round_zero.1 (),
   bargain_store_failure_treated_as_round_zero.2 sampleSettings "能便宜点吗" 0 true true
     (.ok "ok") ()⟩

/-- Counterexample for C7: with a client already cached for the account,
`get_client` returns the cached client even though the account is disabled
and has no credential at the time of the call, so "returns absent whenever
the account is disabled or missing a credential at the time of the call"
fails on the cache-hit path. -/
theorem get_client_cached_bypasses_settings :
    (get_client ⟨["acct1"], [("acct1", 100)], []⟩ disabledSettings true 200 "acct1").1
      = some () := by decide

/-- C7 (amended): on a cache miss, `get_client` returns absent without
raising (and leaves the cache untouched) when the account is disabled or
missing a credential; on a cache hit the cached connection is returned
regardless of the current settings. -/
theorem get_client_miss_absent_when_disabled :
    (∀ (st : EngineState) (s : AISettings) (ok : Bool) (now : Int) (id : String),
      id ∉ st.clients →
      (s.ai_enabled = false ∨ s.api_key = "") →
      (get_client st s ok now id).1 = none ∧ (get_client st s ok now id).2 = st)
    ∧ (∀ (st : EngineState) (s : AISettings) (ok : Bool) (now : Int) (id : String),
      id ∈ st.clients → (get_client st s ok now id).1 = some ()) := by
  constructor
  · intro st s ok now id hmem hor
    unfold get_client
    rw [if_neg hmem, if_pos hor]
    exact ⟨rfl, rfl⟩
  · intro st s ok now id hmem
    unfold get_client
    rw [if_pos hmem]

/-- Witness for C7 (amended): a miss on a disabled account yields absent and
an unchanged state; a hit on the same disabled account yields the client. -/
theorem get_client_miss_absent_when_disabled_witness :
    ("acct2" ∉ (⟨[], [], []⟩ : EngineState).clients) ∧
    (disabledSettings.ai_enabled = false ∨ disabledSettings.api_key = "") ∧
    (get_client ⟨[], [], []⟩ disabledSettings true 0 "acct2").1 = none ∧
    (get_client ⟨[], [], []⟩ disabledSettings true 0 "acct2").2 = ⟨[], [], []⟩ ∧
    (get_client ⟨["acct2"], [("acct2", 5)], []⟩ disabledSettings true 0 "acct2").1 = some () := by
  have h1 : "acct2" ∉ (⟨[], [], []⟩ : EngineState).clients := by decide
  have h2 : disabledSettings.ai_enabled = false ∨ disabledSettings.api_key = "" := by decide
  have hm := get_client_miss_absent_when_disabled.1 ⟨[], [], []⟩ disabledSettings true 0 "acct2"
    h1 h2
  have hh := get_client_miss_absent_when_disabled.2 ⟨["acct2"], [("acct2", 5)], []⟩
    disabledSettings true 0 "acct2" (by decide)
  exact ⟨h1, h2, hm.1, hm.2, hh⟩

/-- C8: one `cleanup_unused_clients` sweep at time `now` with threshold
`maxh` hours removes a cached connection whose last-used timestamp is `T`
iff `now - T` strictly exceeds `maxh * 3600` seconds: the connection stays
in the cache exactly when it was there before and its idle time does not
exceed the threshold (so a sweep removes every over-threshold connection at
once). -/
theorem cleanup_unused_clients_evicts_iff :
    ∀ (st : EngineState) (now T maxh : Int) (id : String),
      (id, T) ∈ st.client_last_used →
      (st.client_last_used.map Prod.fst).Nodup →
      (id ∈ (cleanup_unused_clients st now maxh).clients ↔
        (id ∈ st.clients ∧ ¬ (maxh * 3600 < now - T))) := by
  intro st now T maxh id hmem hnd
  have key : ((st.client_last_used.filter
        (fun p => decide (maxh * 3600 < now - p.2))).map Prod.fst).contains id = true ↔
      maxh * 3600 < now - T := by
    constructor
    · intro hc
      have hm : id ∈ (st.client_last_used.filter
          (fun p => decide (maxh * 3600 < now - p.2))).map Prod.fst := by
        simpa [List.elem_iff] using hc
      rcases List.mem_map.mp hm with ⟨p, hp, hpe⟩
      obtain ⟨p1, p2⟩ := p
      have hpl := (List.mem_filter.mp hp).1
      have hpc := of_decide_eq_true (List.mem_filter.mp hp).2
      cases hpe
      have hT := nodup_keys_eq hnd hmem hpl
      rwa [hT]
    · intro hcond
      have hmemf : (id, T) ∈ st.client_last_used.filter
          (fun p => decide (maxh * 3600 < now - p.2)) :=
        List.mem_filter.mpr ⟨hmem, decide_eq_true hcond⟩
      have hmm : id ∈ (st.client_last_used.filter
          (fun p => decide (maxh * 3600 < now - p.2))).map Prod.fst :=
        List.mem_map.mpr ⟨(id, T), hmemf, rfl⟩
      simpa [List.elem_iff] using hmm
  have hcl : (cleanup_unused_clients st now maxh).clients =
      st.clients.filter (fun i =>
        ¬ ((st.client_last_used.filter
            (fun p => decide (maxh * 3600 < now - p.2))).map Prod.fst).contains i) := rfl
  rw [hcl, List.mem_filter]
  simp only [decide_eq_true_eq]
  rw [← key]

/-- Witness for C8: a connection last used at time 0 is evicted by a
1-hour-threshold sweep at time 7200 and kept by one at time 1800. -/
theorem cleanup_unused_clients_evicts_iff_witness :
    (("a", (0 : Int)) ∈ (⟨["a"], [("a", 0)], []⟩ : EngineState).client_last_used) ∧
    ((⟨["a"], [("a", 0)], []⟩ : EngineState).client_last_used.map Prod.fst).Nodup ∧
    ("a" ∈ (cleanup_unused_clients ⟨["a"], [("a", 0)], []⟩ 7200 1).clients ↔
      ("a" ∈ (⟨["a"], [("a", 0)], []⟩ : EngineState).clients ∧ ¬ ((1 : Int) * 3600 < 7200 - 0))) ∧
    ("a" ∈ (cleanup_unused_clients ⟨["a"], [("a", 0)], []⟩ 1800 1).clients ↔
      ("a" ∈ (⟨["a"], [("a", 0)], []⟩ : EngineState).clients ∧ ¬ ((1 : Int) * 3600 < 1800 - 0))) := by
  refine ⟨by decide, by decide, ?_, ?_⟩
  · exact cleanup_unused_clients_evicts_iff ⟨["a"], [("a", 0)], []⟩ 7200 0 1 "a"
      (by decide) (by decide)
  · exact cleanup_unused_clients_evicts_iff ⟨["a"], [("a", 0)], []⟩ 1800 0 1 "a"
      (by decide) (by decide)

end XianyuAI
